import Mathlib

/-!
Verification development for the location-sharing application.

The definitions below are a shallow embedding of the backend route
handlers (`src/backend/routes/locationRoutes.js`, the admin router in
`src/backend/middleware/auth.js`, and the older router duplicated in
`src/unnamed/part_000`) together with the voting / verification / badge
subsystem described in the specification (whose implementation files —
the Sequelize `Location` model hooks, the vote route and
`badgeRoutes.js` — are not part of the source tree; those parts are
modelled from the spec and say so in their doc comments).

Conventions of the embedding:
 - JavaScript numbers that are only stored and compared (coordinates,
   timestamps in milliseconds) are modelled as `Int`; no floating-point
   arithmetic is performed on them anywhere in the embedded code.
 - A request body field that JavaScript treats as falsy when absent is
   an `Option`; `none` models `undefined` (or the empty string where the
   source tests truthiness of a string field).
 - A route handler is a pure function returning the HTTP status code it
   responds with, paired with the database (a `List Location`) after the
   handler ran.
-/

namespace LocationApp

/-- Verification status enum of a location (`verificationStatus`). -/
inductive VerificationStatus
  | normal
  | pending
  | verified
  | flagged
deriving DecidableEq, Repr

/-- JavaScript numeric values that the embedded code stores and compares
but never does arithmetic on (coordinates). -/
abbrev JSNum := Int

/-- The `content` JSON object of a location: text, parallel media lists
and the anonymity flag. -/
structure Content where
  text : String
  mediaUrls : List String
  mediaTypes : List String
  isAnonymous : Bool
deriving DecidableEq, Repr

/-- A `Location` row: the fields of the Sequelize model that the
embedded routes read or write. `coordinates` is the (longitude,
latitude) pair of the GeoJSON `location.coordinates` array. `deleteAt`
is a timestamp in milliseconds since the epoch, `none` for NULL. -/
structure Location where
  id : Nat
  coordinates : JSNum × JSNum
  content : Content
  creatorId : Nat
  upvotes : Nat
  downvotes : Nat
  totalPoints : Int
  verificationStatus : VerificationStatus
  autoDelete : Bool
  deleteAt : Option Int
deriving DecidableEq, Repr

/-- The authenticated identity the JWT middleware puts on `req.user`:
`{ userId, isAdmin }`. A route receives `none` when `authenticateToken`
rejected the request (missing or invalid token). -/
structure AuthUser where
  userId : Nat
  isAdmin : Bool
deriving DecidableEq, Repr

/-- Embedding of `router.delete('/:id')` in
`src/backend/routes/locationRoutes.js`: 401 without a valid token, 404
when `findByPk` returns nothing, 403 unless the caller is an admin or
the creator, otherwise destroy the row and answer 200. -/
def deleteLocationRoute (auth : Option AuthUser) (locId : Nat)
    (db : List Location) : Nat × List Location :=
  match auth with
  | none => (401, db)
  | some user =>
    match db.find? (fun l => l.id == locId) with
    | none => (404, db)
    | some loc =>
      if !user.isAdmin && loc.creatorId != user.userId then (403, db)
      else (200, db.filter (fun l => l.id != locId))

/-- Embedding of the older `router.delete('/:id')` duplicated in
`src/unnamed/part_000`: same shape but only the creator may delete
(no admin bypass). -/
def deleteLocationRouteLegacy (auth : Option AuthUser) (locId : Nat)
    (db : List Location) : Nat × List Location :=
  match auth with
  | none => (401, db)
  | some user =>
    match db.find? (fun l => l.id == locId) with
    | none => (404, db)
    | some loc =>
      if loc.creatorId != user.userId then (403, db)
      else (200, db.filter (fun l => l.id != locId))

/-- The body of a PUT `/:id` request as the handler reads it.
`text`, `isAnonymous`, `longitude`, `latitude` are raw body fields
(`none` = absent/falsy); `files` is the `req.files` array as
(path, mimetype) pairs; `deleteMediaIndexes` is the parsed JSON array
when the field is present. -/
structure UpdateBody where
  text : Option String
  isAnonymous : Option String
  files : List (String × String)
  deleteMediaIndexes : Option (List Nat)
  longitude : Option JSNum
  latitude : Option JSNum
deriving DecidableEq, Repr

/-- Embedding of JavaScript `arr.filter((_, index) => p index)`:
keep the elements whose position (counting from `i`) satisfies `p`. -/
def filterWithIndex (p : Nat → Bool) : Nat → List α → List α
  | _, [] => []
  | i, x :: xs =>
    if p i then x :: filterWithIndex p (i + 1) xs
    else filterWithIndex p (i + 1) xs

/-- Embedding of the `updatedContent` computation of
`router.put('/:id')`: spread the old content, `text || old.text`,
`isAnonymous === 'true'`; append uploaded file paths/mimetypes when
`req.files` is non-empty; then drop the indexes listed in
`deleteMediaIndexes` from both media lists when that field is present. -/
def updatedContentOf (old : Content) (body : UpdateBody) : Content :=
  let base : Content :=
    { old with
      text := body.text.getD old.text
      isAnonymous := body.isAnonymous == some "true" }
  let withMedia : Content :=
    if body.files.isEmpty then base
    else
      { base with
        mediaUrls := old.mediaUrls ++ body.files.map Prod.fst
        mediaTypes := old.mediaTypes ++ body.files.map Prod.snd }
  match body.deleteMediaIndexes with
  | none => withMedia
  | some idxs =>
    { withMedia with
      mediaUrls := filterWithIndex (fun i => !idxs.contains i) 0 withMedia.mediaUrls
      mediaTypes := filterWithIndex (fun i => !idxs.contains i) 0 withMedia.mediaTypes }

/-- Embedding of the `location.update({ location, content })` step of
`router.put('/:id')`: coordinates come from the body when the field is
truthy, otherwise the stored ones are preserved; `content` is replaced
by `updatedContentOf`. -/
def applyLocationUpdate (loc : Location) (body : UpdateBody) : Location :=
  { loc with
    coordinates :=
      (body.longitude.getD loc.coordinates.1,
       body.latitude.getD loc.coordinates.2)
    content := updatedContentOf loc.content body }

/-- Embedding of `router.put('/:id')` in
`src/backend/routes/locationRoutes.js`: 401 / 404 / 403 exactly as the
delete route, then the found row is updated in place. -/
def updateLocationRoute (auth : Option AuthUser) (locId : Nat)
    (body : UpdateBody) (db : List Location) : Nat × List Location :=
  match auth with
  | none => (401, db)
  | some user =>
    match db.find? (fun l => l.id == locId) with
    | none => (404, db)
    | some loc =>
      if !user.isAdmin && loc.creatorId != user.userId then (403, db)
      else
        (200, db.map (fun l => if l.id == locId then applyLocationUpdate l body else l))

/-- The body of a POST `/` (create location) request as the handler
reads it. `deleteTime` is the already-parsed `parseInt(deleteTime)`
value; `deleteUnit` and `autoDelete` are the raw string fields. -/
structure CreateBody where
  latitude : JSNum
  longitude : JSNum
  text : Option String
  isAnonymous : Option String
  autoDelete : Option String
  deleteTime : Int
  deleteUnit : Option String
  files : List (String × String)
deriving DecidableEq, Repr

/-- Embedding of the `deleteAt` computation in `router.post('/')`:
`null` unless `autoDelete === 'true'`; otherwise the current time plus
`deleteTime` minutes, hours or days (a fall-through `switch`: an
unrecognised unit leaves the timestamp at `now`). Timestamps are
milliseconds since the epoch; `setMinutes`/`setHours`/`setDate` with an
overflowing argument advance the clock by exactly that many
minutes/hours/days of civil time, modelled linearly. -/
def computeDeleteAt (now : Int) (body : CreateBody) : Option Int :=
  if body.autoDelete == some "true" then
    some (match body.deleteUnit with
          | some "minutes" => now + body.deleteTime * 60000
          | some "hours" => now + body.deleteTime * 3600000
          | some "days" => now + body.deleteTime * 86400000
          | _ => now)
  else none

/-- Embedding of `Location.create({...})` in `router.post('/')`:
coordinates `[longitude, latitude]`, `text || ''`, media lists mapped
from `req.files`, `isAnonymous === 'true'`, `autoDelete === 'true'`,
`deleteAt` from `computeDeleteAt`; counters and status start at the
model defaults (0, `normal`). -/
def createLocation (now : Int) (newId : Nat) (userId : Nat)
    (body : CreateBody) : Location :=
  { id := newId
    coordinates := (body.longitude, body.latitude)
    content :=
      { text := body.text.getD ""
        mediaUrls := body.files.map Prod.fst
        mediaTypes := body.files.map Prod.snd
        isAnonymous := body.isAnonymous == some "true" }
    creatorId := userId
    upvotes := 0
    downvotes := 0
    totalPoints := 0
    verificationStatus := .normal
    autoDelete := body.autoDelete == some "true"
    deleteAt := computeDeleteAt now body }

/-- Embedding of the content rewrite in the admin route
`router.delete('/locations/:locationId/media/:mediaIndex')`
(`src/backend/middleware/auth.js`): `none` models the 400 answer for an
out-of-range index; otherwise both media lists drop the entry at
`mediaIndex` (`filter((_, index) => index !== parseInt(mediaIndex))`). -/
def deleteMediaFromLocation (loc : Location) (mediaIndex : Nat) :
    Option Location :=
  if loc.content.mediaUrls.length ≤ mediaIndex then none
  else
    some { loc with
           content :=
             { loc.content with
               mediaUrls :=
                 filterWithIndex (fun i => i != mediaIndex) 0 loc.content.mediaUrls
               mediaTypes :=
                 filterWithIndex (fun i => i != mediaIndex) 0 loc.content.mediaTypes } }

/-- Embedding of the full admin media-deletion route: 401 without a
token, 403 when the caller is not an admin (`adminAuth`), 404 when the
location is missing, 400 on a bad index, else 200 with the row
rewritten. -/
def deleteMediaRoute (auth : Option AuthUser) (locId : Nat)
    (mediaIndex : Nat) (db : List Location) : Nat × List Location :=
  match auth with
  | none => (401, db)
  | some user =>
    if !user.isAdmin then (403, db)
    else
      match db.find? (fun l => l.id == locId) with
      | none => (404, db)
      | some loc =>
        match deleteMediaFromLocation loc mediaIndex with
        | none => (400, db)
        | some updated =>
          (200, db.map (fun l => if l.id == locId then updated else l))

/-- Embedding of the `flagged` case of the admin search route
(`router.get('/search')` in `src/backend/middleware/auth.js`): a
location matches when `verificationStatus = 'flagged'` or
`totalPoints < -5`. -/
def flaggedSearchMatch (loc : Location) : Bool :=
  loc.verificationStatus == .flagged || loc.totalPoints < -5

/-- Modelled from the spec: the Verification State Machine of §4.3,
whose implementation (the hook that moves `verificationStatus` after a
point change) is not among the source files. `totalPoints < -5` flags
the location; at or above the configured verification threshold a
`normal` or `pending` location becomes `verified`; otherwise the status
is unchanged. -/
def applyVerificationTransition (verifyThreshold : Int) (points : Int)
    (status : VerificationStatus) : VerificationStatus :=
  if points < -5 then .flagged
  else if verifyThreshold ≤ points ∧ (status = .normal ∨ status = .pending) then
    .verified
  else status

/-- Direction of a vote. -/
inductive VoteDirection
  | up
  | down
deriving DecidableEq, Repr

/-- The opposite direction of a vote. -/
def VoteDirection.flip : VoteDirection → VoteDirection
  | .up => .down
  | .down => .up

/-- Modelled from the spec: the per-location voting state of §4.1 —
the two counters, the cached `totalPoints`, and the ledger holding at
most one vote per user (an association list keyed by user id). The
vote route and the `Vote` model are not among the source files. -/
structure VoteState where
  upvotes : Nat
  downvotes : Nat
  totalPoints : Int
  ledger : List (Nat × VoteDirection)
deriving DecidableEq, Repr

/-- The voting state of a freshly created location: zero counters,
empty ledger. -/
def initialVoteState : VoteState := ⟨0, 0, 0, []⟩

/-- Recompute and persist `totalPoints = upvotes - downvotes` (spec
§4.1: done in the same atomic unit as any counter mutation). -/
def recomputePoints (st : VoteState) : VoteState :=
  { st with totalPoints := (st.upvotes : Int) - (st.downvotes : Int) }

/-- Increment the counter matching a direction. -/
def incCounter (d : VoteDirection) (st : VoteState) : VoteState :=
  match d with
  | .up => { st with upvotes := st.upvotes + 1 }
  | .down => { st with downvotes := st.downvotes + 1 }

/-- Decrement the counter matching a direction. -/
def decCounter (d : VoteDirection) (st : VoteState) : VoteState :=
  match d with
  | .up => { st with upvotes := st.upvotes - 1 }
  | .down => { st with downvotes := st.downvotes - 1 }

/-- Replace the first ledger entry of a user (update in place), or
append the vote when the user has none. -/
def setVote (u : Nat) (d : VoteDirection) :
    List (Nat × VoteDirection) → List (Nat × VoteDirection)
  | [] => [(u, d)]
  | (v, e) :: rest =>
    if v == u then (v, d) :: rest else (v, e) :: setVote u d rest

/-- Modelled from the spec: `castVote` of §4.1. First vote: record it
and bump the matching counter. Same direction again: idempotent no-op.
Opposite direction: flip the ledger entry, decrement the old counter,
increment the new one. Every counter mutation recomputes
`totalPoints` atomically. -/
def castVote (u : Nat) (d : VoteDirection) (st : VoteState) : VoteState :=
  match st.ledger.lookup u with
  | none =>
    recomputePoints { incCounter d st with ledger := (u, d) :: st.ledger }
  | some prev =>
    if prev == d then st
    else
      recomputePoints
        { incCounter d (decCounter prev st) with ledger := setVote u d st.ledger }

/-- Fold a sequence of votes (userId, direction) over a voting state. -/
def applyVotes (st : VoteState) (votes : List (Nat × VoteDirection)) : VoteState :=
  votes.foldl (fun s v => castVote v.1 v.2 s) st

/-- Number of ledger entries with a given direction. -/
def countDir (d : VoteDirection) (l : List (Nat × VoteDirection)) : Nat :=
  (l.filter (fun e => e.2 == d)).length

/-- A voting state whose counters and cached points agree with its
ledger — the states reachable from `initialVoteState`. -/
def WellFormedVotes (st : VoteState) : Prop :=
  st.upvotes = countDir .up st.ledger ∧
  st.downvotes = countDir .down st.ledger ∧
  st.totalPoints = (st.upvotes : Int) - (st.downvotes : Int)

instance (st : VoteState) : Decidable (WellFormedVotes st) := by
  unfold WellFormedVotes; infer_instance

/-- Modelled from the spec: the aggregate counters §4.4 recomputes from
a user's full history before evaluating badge rules. -/
structure UserAggregates where
  locationsCreated : Nat
  votesReceived : Int
  votesCast : Nat
  credits : Nat
deriving DecidableEq, Repr

/-- Modelled from the spec: a Badge Rule of §3 — a badge identifier
plus a predicate over the aggregate counters; the rule table is
immutable configuration. -/
structure BadgeRule where
  id : String
  pred : UserAggregates → Bool

/-- Modelled from the spec: `evaluate(userId)` of §4.4, with the
recomputed aggregates passed in. For each rule not already granted
whose predicate holds, append the badge to the user's badge list and
emit it; return the emitted identifiers together with the updated badge
list. The badge route (`badgeRoutes.js`) is not among the source
files. -/
def evaluateBadges (rules : List BadgeRule) (agg : UserAggregates)
    (badges : List String) : List String × List String :=
  match rules with
  | [] => ([], badges)
  | r :: rs =>
    if r.pred agg = true ∧ r.id ∉ badges then
      let rest := evaluateBadges rs agg (badges ++ [r.id])
      (r.id :: rest.1, rest.2)
    else evaluateBadges rs agg badges

/-- A sample stored content value used by concrete instantiations. -/
def sampleContent : Content :=
  { text := "hello"
    mediaUrls := ["uploads/a"]
    mediaTypes := ["image/png"]
    isAnonymous := false }

/-- A sample stored location (creator 1) used by concrete
instantiations. -/
def sampleLocation : Location :=
  { id := 1
    coordinates := (10, 20)
    content := sampleContent
    creatorId := 1
    upvotes := 0
    downvotes := 0
    totalPoints := 0
    verificationStatus := .normal
    autoDelete := false
    deleteAt := none }

/-- An update request body with every field absent. -/
def emptyUpdateBody : UpdateBody :=
  { text := none
    isAnonymous := none
    files := []
    deleteMediaIndexes := none
    longitude := none
    latitude := none }

/-- An update request body that supplies new coordinates and nothing
else. -/
def coordUpdateBody : UpdateBody :=
  { emptyUpdateBody with longitude := some 30, latitude := some 40 }

/-- C2: for a location that is not already flagged, the transition rule
sends it to `flagged` exactly when `totalPoints < -5` (so -6 flags and
-5 does not), and the admin flagged-search matches it exactly when
`totalPoints < -5`. -/
theorem flagged_threshold_exact (th : Int) (s : VerificationStatus)
    (hs : s ≠ .flagged) :
    (∀ p : Int, applyVerificationTransition th p s = .flagged ↔ p < -5) ∧
    (∀ loc : Location, loc.verificationStatus ≠ .flagged →
       (flaggedSearchMatch loc = true ↔ loc.totalPoints < -5)) := by
  constructor
  · intro p
    unfold applyVerificationTransition
    constructor
    · intro h
      by_contra hlt
      rw [if_neg hlt] at h
      split at h
      · exact absurd h (by intro hx; cases hx)
      · exact hs h
    · intro h
      rw [if_pos h]
  · intro loc hloc
    unfold flaggedSearchMatch
    simp [hloc]

/-- Concrete instantiation of `flagged_threshold_exact`: at threshold
10, a `normal` location reaches `flagged` exactly below -5, checked at
-6, -5, and on `sampleLocation` for the search predicate. -/
theorem flagged_threshold_exact_witness :
    (VerificationStatus.normal ≠ .flagged) ∧
    (applyVerificationTransition 10 (-6) .normal = .flagged ↔ (-6 : Int) < -5) ∧
    (applyVerificationTransition 10 (-5) .normal = .flagged ↔ (-5 : Int) < -5) ∧
    (sampleLocation.verificationStatus ≠ .flagged) ∧
    (flaggedSearchMatch sampleLocation = true ↔ sampleLocation.totalPoints < -5) :=
  ⟨by decide,
   (flagged_threshold_exact 10 .normal (by decide)).1 (-6),
   (flagged_threshold_exact 10 .normal (by decide)).1 (-5),
   by decide,
   (flagged_threshold_exact 10 .normal (by decide)).2 sampleLocation (by decide)⟩

/-- C5 counterexample: an update request by the creator that supplies
`longitude`/`latitude` succeeds (status 200) and changes the stored
coordinates, so coordinates are not immutable after creation. -/
theorem coordinates_mutable_counterexample :
    (updateLocationRoute (some ⟨1, false⟩) 1 coordUpdateBody [sampleLocation]).1 = 200 ∧
    (updateLocationRoute (some ⟨1, false⟩) 1 coordUpdateBody [sampleLocation]).2.map
        Location.coordinates ≠ [sampleLocation].map Location.coordinates := by
  decide

/-- C5 (amended): an update that supplies neither `longitude` nor
`latitude` preserves the stored coordinates; an update supplying both
overwrites them with the supplied pair. -/
theorem coordinates_preserved_unless_supplied (loc : Location) (body : UpdateBody) :
    (body.longitude = none → body.latitude = none →
      (applyLocationUpdate loc body).coordinates = loc.coordinates) ∧
    (∀ lo la : JSNum, body.longitude = some lo → body.latitude = some la →
      (applyLocationUpdate loc body).coordinates = (lo, la)) := by
  constructor
  · intro h1 h2
    simp [applyLocationUpdate, h1, h2]
  · intro lo la h1 h2
    simp [applyLocationUpdate, h1, h2]

/-- Concrete instantiation of `coordinates_preserved_unless_supplied`
on `sampleLocation` with the all-absent body. -/
theorem coordinates_preserved_unless_supplied_witness :
    emptyUpdateBody.longitude = none ∧ emptyUpdateBody.latitude = none ∧
    (applyLocationUpdate sampleLocation emptyUpdateBody).coordinates =
      sampleLocation.coordinates :=
  ⟨rfl, rfl,
   (coordinates_preserved_unless_supplied sampleLocation emptyUpdateBody).1 rfl rfl⟩

/-- C6 counterexample: an admin who is not the creator deletes the
location successfully (status 200 and the row is gone), so mutation is
not exclusive to the creator. -/
theorem admin_can_delete_others_location :
    deleteLocationRoute (some ⟨2, true⟩) 1 [sampleLocation] = (200, []) := by
  decide

/-- C6 (amended): a mutation request by a caller who is neither the
creator nor an admin answers 403 and leaves the database unchanged, on
the delete route, the update route, and the older creator-only delete
route. -/
theorem non_owner_non_admin_forbidden (u : AuthUser) (locId : Nat)
    (db : List Location) (body : UpdateBody) (loc : Location)
    (hfind : db.find? (fun l => l.id == locId) = some loc)
    (hadmin : u.isAdmin = false) (howner : loc.creatorId ≠ u.userId) :
    deleteLocationRoute (some u) locId db = (403, db) ∧
    updateLocationRoute (some u) locId body db = (403, db) ∧
    deleteLocationRouteLegacy (some u) locId db = (403, db) := by
  refine ⟨?_, ?_, ?_⟩ <;>
    simp [deleteLocationRoute, updateLocationRoute, deleteLocationRouteLegacy,
      hfind, hadmin, howner]

/-- Concrete instantiation of `non_owner_non_admin_forbidden`: user 2
(not an admin, not the creator) is refused with 403. -/
theorem non_owner_non_admin_forbidden_witness :
    ([sampleLocation].find? (fun l => l.id == 1) = some sampleLocation) ∧
    ((⟨2, false⟩ : AuthUser).isAdmin = false) ∧
    (sampleLocation.creatorId ≠ (⟨2, false⟩ : AuthUser).userId) ∧
    deleteLocationRoute (some ⟨2, false⟩) 1 [sampleLocation] = (403, [sampleLocation]) :=
  ⟨by decide, rfl, by decide,
   (non_owner_non_admin_forbidden ⟨2, false⟩ 1 [sampleLocation] emptyUpdateBody
      sampleLocation (by decide) rfl (by decide)).1⟩

/-- C7: every modelled operation on a locationId answers 401 when the
request carries no valid identity, and 404 when the id does not resolve
to a stored location (for the admin media route, once past the admin
check). -/
theorem missing_location_and_auth_errors (locId : Nat) (db : List Location)
    (body : UpdateBody) (mediaIndex : Nat) :
    deleteLocationRoute none locId db = (401, db) ∧
    updateLocationRoute none locId body db = (401, db) ∧
    deleteLocationRouteLegacy none locId db = (401, db) ∧
    deleteMediaRoute none locId mediaIndex db = (401, db) ∧
    (∀ u : AuthUser, db.find? (fun l => l.id == locId) = none →
      deleteLocationRoute (some u) locId db = (404, db) ∧
      updateLocationRoute (some u) locId body db = (404, db) ∧
      deleteLocationRouteLegacy (some u) locId db = (404, db) ∧
      (u.isAdmin = true → deleteMediaRoute (some u) locId mediaIndex db = (404, db))) := by
  refine ⟨rfl, rfl, rfl, rfl, ?_⟩
  intro u hfind
  refine ⟨?_, ?_, ?_, fun hadm => ?_⟩
  · simp [deleteLocationRoute, hfind]
  · simp [updateLocationRoute, hfind]
  · simp [deleteLocationRouteLegacy, hfind]
  · simp [deleteMediaRoute, hfind, hadm]

/-- Concrete instantiation of `missing_location_and_auth_errors`: on an
empty database, id 1 does not resolve and the delete route answers
404. -/
theorem missing_location_and_auth_errors_witness :
    (([] : List Location).find? (fun l => l.id == 1) = none) ∧
    deleteLocationRoute (some ⟨1, true⟩) 1 [] = (404, []) :=
  ⟨rfl,
   ((missing_location_and_auth_errors 1 [] emptyUpdateBody 0).2.2.2.2
      ⟨1, true⟩ rfl).1⟩

/-- C8: with `autoDelete = 'true'` the created location's `deleteAt` is
the creation time plus `deleteTime` minutes, hours or days according to
`deleteUnit`; with any other `autoDelete` value it is `null`. -/
theorem auto_delete_sets_deleteAt (now : Int) (newId userId : Nat)
    (body : CreateBody) :
    (body.autoDelete = some "true" →
      (body.deleteUnit = some "minutes" →
        (createLocation now newId userId body).deleteAt =
          some (now + body.deleteTime * 60000)) ∧
      (body.deleteUnit = some "hours" →
        (createLocation now newId userId body).deleteAt =
          some (now + body.deleteTime * 3600000)) ∧
      (body.deleteUnit = some "days" →
        (createLocation now newId userId body).deleteAt =
          some (now + body.deleteTime * 86400000))) ∧
    (body.autoDelete ≠ some "true" →
      (createLocation now newId userId body).deleteAt = none) := by
  constructor
  · intro ha
    refine ⟨fun hu => ?_, fun hu => ?_, fun hu => ?_⟩ <;>
      simp [createLocation, computeDeleteAt, ha, hu]
  · intro ha
    simp [createLocation, computeDeleteAt, ha]

/-- Concrete instantiation of `auto_delete_sets_deleteAt`: a creation
at time 0 with `autoDelete='true'`, 5 minutes, lands at 300000 ms. -/
theorem auto_delete_sets_deleteAt_witness :
    ((some "true" : Option String) = some "true") ∧
    (createLocation 0 7 3
        { latitude := 1, longitude := 2, text := none, isAnonymous := none,
          autoDelete := some "true", deleteTime := 5,
          deleteUnit := some "minutes", files := [] }).deleteAt =
      some (0 + 5 * 60000) :=
  ⟨rfl,
   ((auto_delete_sets_deleteAt 0 7 3
      { latitude := 1, longitude := 2, text := none, isAnonymous := none,
        autoDelete := some "true", deleteTime := 5,
        deleteUnit := some "minutes", files := [] }).1 rfl).1 rfl⟩

/-- C10: an update whose `isAnonymous` body field is absent or differs
from the string 'true' stores `false` as the anonymity flag, whatever
the flag was before. -/
theorem update_resets_anonymity (loc : Location) (body : UpdateBody)
    (h : body.isAnonymous ≠ some "true") :
    (applyLocationUpdate loc body).content.isAnonymous = false := by
  unfold applyLocationUpdate updatedContentOf
  cases hdel : body.deleteMediaIndexes <;>
    by_cases hf : body.files.isEmpty <;>
    simp [hdel, hf, h]

/-- Concrete instantiation of `update_resets_anonymity`: a previously
anonymous location updated with `isAnonymous='false'` ends up not
anonymous. -/
theorem update_resets_anonymity_witness :
    ((some "false" : Option String) ≠ some "true") ∧
    (applyLocationUpdate
        { sampleLocation with content := { sampleContent with isAnonymous := true } }
        { emptyUpdateBody with isAnonymous := some "false" }).content.isAnonymous = false :=
  ⟨by decide,
   update_resets_anonymity
     { sampleLocation with content := { sampleContent with isAnonymous := true } }
     { emptyUpdateBody with isAnonymous := some "false" } (by decide)⟩

/-- Agreement of the cached `totalPoints` with the counters. -/
def PointsConsistent (st : VoteState) : Prop :=
  st.totalPoints = (st.upvotes : Int) - (st.downvotes : Int)

theorem castVote_pointsConsistent (u : Nat) (d : VoteDirection)
    (st : VoteState) (h : PointsConsistent st) :
    PointsConsistent (castVote u d st) := by
  unfold castVote
  cases hl : st.ledger.lookup u with
  | none => rfl
  | some prev =>
    by_cases hp : prev = d
    · simpa [hp] using h
    · simp only [beq_iff_eq, hp, if_false]
      rfl

theorem applyVotes_pointsConsistent (votes : List (Nat × VoteDirection)) :
    ∀ st : VoteState, PointsConsistent st →
      PointsConsistent (applyVotes st votes) := by
  induction votes with
  | nil => intro st h; exact h
  | cons v vs ih =>
    intro st h
    exact ih (castVote v.1 v.2 st) (castVote_pointsConsistent v.1 v.2 st h)

/-- C1: after any sequence of votes on a freshly created location, the
stored `totalPoints` equals the upvote counter minus the downvote
counter (so in particular it holds after every step of any longer
sequence, each step being such a sequence). -/
theorem totalPoints_eq_upvotes_sub_downvotes
    (votes : List (Nat × VoteDirection)) :
    (applyVotes initialVoteState votes).totalPoints =
      ((applyVotes initialVoteState votes).upvotes : Int) -
        ((applyVotes initialVoteState votes).downvotes : Int) :=
  applyVotes_pointsConsistent votes initialVoteState rfl

theorem countDir_cons (d : VoteDirection) (e : Nat × VoteDirection)
    (l : List (Nat × VoteDirection)) :
    countDir d (e :: l) = (if e.2 = d then 1 else 0) + countDir d l := by
  unfold countDir
  by_cases h : e.2 = d <;> simp [h, List.filter_cons, Nat.add_comm]

theorem lookup_countDir_pos (u : Nat) (d : VoteDirection) :
    ∀ l : List (Nat × VoteDirection), l.lookup u = some d →
      1 ≤ countDir d l := by
  intro l
  induction l with
  | nil => intro h; simp [List.lookup] at h
  | cons e rest ih =>
    intro h
    obtain ⟨k, v⟩ := e
    rw [countDir_cons]
    by_cases hk : (u == k) = true
    · have hv : v = d := by
        simp only [List.lookup, hk] at h
        exact Option.some.inj h
      simp [hv]
    · have hk' : (u == k) = false := by simpa using hk
      have h' : rest.lookup u = some d := by
        simpa only [List.lookup, hk'] using h
      have := ih h'
      omega

/-- C3: a user who already holds a vote on the location and casts the
opposite direction changes `totalPoints` by exactly -2 (when flipping
an upvote down) or +2 (when flipping a downvote up) — never by 1. -/
theorem vote_flip_changes_points_by_two (st : VoteState) (u : Nat)
    (prev : VoteDirection) (hwf : WellFormedVotes st)
    (hprev : st.ledger.lookup u = some prev) :
    (castVote u prev.flip st).totalPoints =
      st.totalPoints + (match prev with | .up => -2 | .down => 2) := by
  obtain ⟨hu, hd, hp⟩ := hwf
  cases prev with
  | up =>
    have hpos : 1 ≤ countDir .up st.ledger :=
      lookup_countDir_pos u .up st.ledger hprev
    simp [castVote, hprev, VoteDirection.flip, recomputePoints,
      incCounter, decCounter]
    omega
  | down =>
    have hpos : 1 ≤ countDir .down st.ledger :=
      lookup_countDir_pos u .down st.ledger hprev
    simp [castVote, hprev, VoteDirection.flip, recomputePoints,
      incCounter, decCounter]
    omega

/-- Concrete instantiation of `vote_flip_changes_points_by_two`: a
location with one recorded upvote from user 5; user 5 flips to a
downvote and the points drop from 1 to -1. -/
theorem vote_flip_changes_points_by_two_witness :
    WellFormedVotes ⟨1, 0, 1, [(5, .up)]⟩ ∧
    (List.lookup 5 [(5, VoteDirection.up)] = some .up) ∧
    (castVote 5 VoteDirection.up.flip ⟨1, 0, 1, [(5, .up)]⟩).totalPoints = 1 + -2 :=
  ⟨by decide, by decide,
   vote_flip_changes_points_by_two ⟨1, 0, 1, [(5, .up)]⟩ 5 .up
     (by decide) (by decide)⟩

theorem mem_evaluateBadges_snd (agg : UserAggregates) :
    ∀ (rules : List BadgeRule) (badges : List String) (b : String),
      b ∈ badges → b ∈ (evaluateBadges rules agg badges).2 := by
  intro rules
  induction rules with
  | nil => intro badges b hb; simpa [evaluateBadges] using hb
  | cons q qs ih =>
    intro badges b hb
    simp only [evaluateBadges]
    split
    · exact ih (badges ++ [q.id]) b (List.mem_append_left _ hb)
    · exact ih badges b hb

theorem pred_true_mem_evaluateBadges_snd (agg : UserAggregates) :
    ∀ (rules : List BadgeRule) (badges : List String) (r : BadgeRule),
      r ∈ rules → r.pred agg = true →
      r.id ∈ (evaluateBadges rules agg badges).2 := by
  intro rules
  induction rules with
  | nil => intro badges r hr _; simp at hr
  | cons q qs ih =>
    intro badges r hr hp
    simp only [evaluateBadges]
    rcases List.mem_cons.mp hr with heq | hr'
    · subst heq
      split
      · exact mem_evaluateBadges_snd agg qs (badges ++ [r.id]) r.id (by simp)
      · rename_i hcond
        have hmem : r.id ∈ badges := by
          by_contra hnb
          exact hcond ⟨hp, hnb⟩
        exact mem_evaluateBadges_snd agg qs badges r.id hmem
    · split
      · exact ih (badges ++ [q.id]) r hr' hp
      · exact ih badges r hr' hp

theorem evaluateBadges_all_granted_empty (agg : UserAggregates) :
    ∀ (rules : List BadgeRule) (badges : List String),
      (∀ r ∈ rules, r.pred agg = true → r.id ∈ badges) →
      (evaluateBadges rules agg badges).1 = [] := by
  intro rules
  induction rules with
  | nil => intro badges _; rfl
  | cons q qs ih =>
    intro badges h
    simp only [evaluateBadges]
    split
    · rename_i hcond
      exact absurd (h q (by simp) hcond.1) hcond.2
    · exact ih badges fun r hr hp => h r (List.mem_cons_of_mem q hr) hp

theorem mem_badges_not_emitted (agg : UserAggregates) :
    ∀ (rules : List BadgeRule) (badges : List String) (b : String),
      b ∈ badges → b ∉ (evaluateBadges rules agg badges).1 := by
  intro rules
  induction rules with
  | nil => intro badges b _ hmem; simp [evaluateBadges] at hmem
  | cons q qs ih =>
    intro badges b hb
    simp only [evaluateBadges]
    split
    · rename_i hcond
      intro hmem
      rcases List.mem_cons.mp hmem with heq | hmem'
      · subst heq
        exact hcond.2 hb
      · exact ih (badges ++ [q.id]) b (List.mem_append_left _ hb) hmem'
    · exact ih badges b hb

/-- C4: badge evaluation is idempotent — re-running it on the badge
list produced by a first run (with the same recomputed aggregates, i.e.
no intervening activity) emits nothing, and a badge already granted
before a run is never re-emitted by that run. -/
theorem badge_evaluation_idempotent (rules : List BadgeRule)
    (agg : UserAggregates) (badges : List String) :
    (evaluateBadges rules agg (evaluateBadges rules agg badges).2).1 = [] ∧
    ∀ b ∈ badges, b ∉ (evaluateBadges rules agg badges).1 := by
  constructor
  · exact evaluateBadges_all_granted_empty agg rules _
      fun r hr hp => pred_true_mem_evaluateBadges_snd agg rules badges r hr hp
  · intro b hb
    exact mem_badges_not_emitted agg rules badges b hb

/-- Concrete instantiation of `badge_evaluation_idempotent` on a
one-rule table: the already-granted badge is not re-emitted. -/
theorem badge_evaluation_idempotent_witness :
    ("locations_10" : String) ∈ ["locations_10"] ∧
    "locations_10" ∉
      (evaluateBadges
        [{ id := "locations_10", pred := fun a => decide (10 ≤ a.locationsCreated) }]
        { locationsCreated := 10, votesReceived := 0, votesCast := 0, credits := 0 }
        ["locations_10"]).1 :=
  ⟨by decide,
   (badge_evaluation_idempotent
      [{ id := "locations_10", pred := fun a => decide (10 ≤ a.locationsCreated) }]
      { locationsCreated := 10, votesReceived := 0, votesCast := 0, credits := 0 }
      ["locations_10"]).2 "locations_10" (by decide)⟩

theorem filterWithIndex_length_congr (p : Nat → Bool) :
    ∀ (xs : List α) (ys : List β) (i : Nat), xs.length = ys.length →
      (filterWithIndex p i xs).length = (filterWithIndex p i ys).length := by
  intro xs
  induction xs with
  | nil =>
    intro ys i h
    cases ys with
    | nil => rfl
    | cons y ys => simp at h
  | cons x xs ih =>
    intro ys i h
    cases ys with
    | nil => simp at h
    | cons y ys =>
      have h' : xs.length = ys.length := by simpa using h
      simp only [filterWithIndex]
      by_cases hp : p i = true
      · simp [hp, ih ys (i + 1) h']
      · simp [hp, ih ys (i + 1) h']

/-- C9: the media-url and media-type lists keep equal lengths — a fresh
creation produces equal-length lists, and both the content rewrite of
the update route and the admin media deletion preserve equality of the
lengths. -/
theorem media_lists_stay_paired (now : Int) (newId userId : Nat)
    (cbody : CreateBody) :
    ((createLocation now newId userId cbody).content.mediaUrls.length =
      (createLocation now newId userId cbody).content.mediaTypes.length) ∧
    (∀ (old : Content) (body : UpdateBody),
      old.mediaUrls.length = old.mediaTypes.length →
      (updatedContentOf old body).mediaUrls.length =
        (updatedContentOf old body).mediaTypes.length) ∧
    (∀ (loc updated : Location) (mi : Nat),
      deleteMediaFromLocation loc mi = some updated →
      loc.content.mediaUrls.length = loc.content.mediaTypes.length →
      updated.content.mediaUrls.length = updated.content.mediaTypes.length) := by
  refine ⟨by simp [createLocation], ?_, ?_⟩
  · intro old body h
    unfold updatedContentOf
    cases hdel : body.deleteMediaIndexes with
    | none =>
      by_cases hf : body.files.isEmpty <;> simp [hf, h]
    | some idxs =>
      by_cases hf : body.files.isEmpty <;>
        · simp only [hf]
          apply filterWithIndex_length_congr
          simp [h]
  · intro loc updated mi hdel h
    unfold deleteMediaFromLocation at hdel
    by_cases hlen : loc.content.mediaUrls.length ≤ mi
    · simp [hlen] at hdel
    · rw [if_neg hlen] at hdel
      cases hdel
      exact filterWithIndex_length_congr _ _ _ 0 h

/-- Concrete instantiation of `media_lists_stay_paired`: updating
`sampleContent` (one url, one type) with a body that deletes index 0
keeps the two lists the same length. -/
theorem media_lists_stay_paired_witness :
    sampleContent.mediaUrls.length = sampleContent.mediaTypes.length ∧
    (updatedContentOf sampleContent
        { emptyUpdateBody with deleteMediaIndexes := some [0] }).mediaUrls.length =
      (updatedContentOf sampleContent
        { emptyUpdateBody with deleteMediaIndexes := some [0] }).mediaTypes.length :=
  ⟨by decide,
   (media_lists_stay_paired 0 1 1
      { latitude := 0, longitude := 0, text := none, isAnonymous := none,
        autoDelete := none, deleteTime := 0, deleteUnit := none,
        files := [] }).2.1 sampleContent
      { emptyUpdateBody with deleteMediaIndexes := some [0] } (by decide)⟩

end LocationApp
